import Mathlib

/-!
Verification of the SSDP server core (`coherence/upnp/core/ssdp.py`)
against its natural-language specification.

The Python module is shallowly embedded: the registry `self.known` (a
Python dict keyed by USN) becomes an insertion-ordered association list,
each handler becomes a pure function from its inputs and the registry to
a result, and a Python exception escaping a handler becomes an
`Except.error` carrying the exception kind.  Time (`time.time()`) is an
integer parameter, the RNG (`random.randint`) is a function parameter
constrained to the interval `randint` draws from, and transport writes /
`reactor.callLater` calls are collected into output lists.
-/

deriving instance DecidableEq for Except

namespace SSDP

/-- `SSDP_ADDR` from the source. -/
def SSDP_ADDR : String := "239.255.255.250"

/-- `SSDP_PORT` from the source. -/
def SSDP_PORT : Nat := 1900

/-- A network address `(host, port)`. -/
abbrev Addr := String × Nat

/-- Exception kinds a handler can raise (model of Python exceptions
escaping a method). -/
inductive PyErr where
  /-- `KeyError` on the named dict key. -/
  | keyError : String → PyErr
  /-- `IndexError` (list index out of range). -/
  | indexError : PyErr
  /-- `ValueError` on the given offending string. -/
  | valueError : String → PyErr
  /-- The malformed-datagram path of `datagramReceived`: the `except
  ValueError` arm runs `pdb.set_trace()` and falls through, after which
  the unbound local `header` raises `NameError`. -/
  | nameError : PyErr
  deriving DecidableEq, Repr

/-- One entry of `self.known`: the fields `register` stores, in the
order `register` inserts them into the per-USN dict. -/
structure ServiceRecord where
  usn : String
  location : String
  st : String
  ext : String
  server : String
  cacheControl : String
  manifestation : String
  silent : Bool
  host : Option String
  lastSeen : Int
  deriving DecidableEq, Repr

/-- `str(bool)` in Python. -/
def pyStrBool (b : Bool) : String := if b then "True" else "False"

/-- `str(host)` for the optional HOST field (Python prints `None`). -/
def pyStrHost : Option String → String
  | none => "None"
  | some h => h

/-- `list(self.known[usn].items())`: the key/value pairs of a record's
dict in insertion order (the order `register` assigns them). -/
def recordItems (r : ServiceRecord) : List (String × String) :=
  [("USN", r.usn), ("LOCATION", r.location), ("ST", r.st), ("EXT", r.ext),
   ("SERVER", r.server), ("CACHE-CONTROL", r.cacheControl),
   ("MANIFESTATION", r.manifestation), ("SILENT", pyStrBool r.silent),
   ("HOST", pyStrHost r.host), ("last-seen", toString r.lastSeen)]

/-- The registry `self.known`: an insertion-ordered map from USN to
record, as a Python dict is. -/
abbrev Registry := List (String × ServiceRecord)

/-- Python dict lookup `m[k]` (as an `Option`). -/
def dictGet? (m : List (String × α)) (k : String) : Option α :=
  (m.find? (fun p => p.1 = k)).map Prod.snd

/-- Python dict assignment `m[k] = v`: overwrite in place if the key
exists, append otherwise. -/
def dictSet (m : List (String × α)) (k : String) (v : α) : List (String × α) :=
  if m.any (fun p => p.1 = k) then
    m.map (fun p => if p.1 = k then (k, v) else p)
  else
    m ++ [(k, v)]

/-- Python `del m[k]`. -/
def dictDel (m : List (String × α)) (k : String) : List (String × α) :=
  m.filter (fun p => p.1 ≠ k)

@[simp] theorem dictGet?_nil (k : String) : dictGet? ([] : List (String × α)) k = none := rfl

theorem dictGet?_dictSet_self (m : List (String × α)) (k : String) (v : α) :
    dictGet? (dictSet m k v) k = some v := by
  unfold dictGet? dictSet
  by_cases h : m.any (fun p => p.1 = k)
  · simp only [h, if_true]
    induction m with
    | nil => simp at h
    | cons p rest ih =>
      by_cases hp : p.1 = k
      · simp [List.find?, hp]
      · simp only [List.map_cons, if_neg hp]
        have hrest : rest.any (fun p => p.1 = k) := by
          simp only [List.any_cons] at h
          rcases Bool.or_eq_true_iff.mp h with h1 | h2
          · exact absurd (by simpa using h1) hp
          · exact h2
        have := ih hrest
        simpa [List.find?, hp] using this
  · simp only [h, if_false]
    induction m with
    | nil => simp [List.find?]
    | cons p rest ih =>
      simp only [List.any_cons, Bool.or_eq_true_iff, not_or] at h
      have hp : ¬ p.1 = k := by simpa using h.1
      simpa [List.find?, hp] using ih (by simpa using h.2)

/-- State of `self.transport` at the time of a write. -/
inductive TransportState where
  /-- Transport present; writes succeed. -/
  | up
  /-- `self.transport` is `None` or missing (`AttributeError` on write). -/
  | absent
  /-- Writes raise `socket.error`. -/
  | faulted
  deriving DecidableEq, Repr

/-- A datagram handed to `self.transport.write`. -/
structure Send where
  data : String
  dest : Addr
  deriving DecidableEq, Repr

/-- A `reactor.callLater(delay, self.send_it, response, destination, delay, usn)`. -/
structure Delayed where
  delay : Int
  response : String
  dest : Addr
  usn : String
  deriving DecidableEq, Repr

/-- A `louie.send` publication on the in-process event bus. -/
inductive Event where
  | newDevice (deviceType : String) (infos : ServiceRecord)
  | removedDevice (deviceType : String) (infos : ServiceRecord)
  | datagramReceived (data : String) (host : String) (port : Nat)
  | logMsg (source : String) (host : String) (message : String)
  deriving DecidableEq, Repr

/-- `'\r\n'.join(lines)`. -/
def crlfJoin (lines : List String) : String := String.intercalate "\r\n" lines

/-- The `stcpy` manipulation shared by `doNotify` and `doByebye`: copy
the record dict, set `NT` to the `ST` value, then delete `ST`,
`MANIFESTATION`, `SILENT`, `HOST` and `last-seen`. -/
def stcpyHeaders (r : ServiceRecord) : List (String × String) :=
  let m := dictSet (recordItems r) "NT" r.st
  dictDel (dictDel (dictDel (dictDel (dictDel m "ST") "MANIFESTATION") "SILENT") "HOST") "last-seen"

/-- `': '.join(x)` for one header pair. -/
def headerLine (kv : String × String) : String := kv.1 ++ ": " ++ kv.2

/-- The alive notification datagram `doNotify` writes. -/
def notifyAliveMessage (r : ServiceRecord) : String :=
  crlfJoin (["NOTIFY * HTTP/1.1",
             "HOST: " ++ SSDP_ADDR ++ ":" ++ toString SSDP_PORT,
             "NTS: ssdp:alive"]
            ++ (stcpyHeaders r).map headerLine ++ ["", ""])

/-- The byebye notification datagram `doByebye` writes. -/
def notifyByebyeMessage (r : ServiceRecord) : String :=
  crlfJoin (["NOTIFY * HTTP/1.1",
             "HOST: " ++ SSDP_ADDR ++ ":" ++ toString SSDP_PORT,
             "NTS: ssdp:byebye"]
            ++ (stcpyHeaders r).map headerLine ++ ["", ""])

/-- The transport writes `doNotify` performs once it has the record:
nothing for a silent record; otherwise the same alive datagram is
written twice.  Both writes sit in one `try` whose `except` swallows
`AttributeError` and `socket.error`, so a broken transport yields no
successful write and no escaping exception. -/
def doNotifyWrites (tr : TransportState) (r : ServiceRecord) : List Send :=
  if r.silent then []
  else match tr with
    | .up => [⟨notifyAliveMessage r, (SSDP_ADDR, SSDP_PORT)⟩,
              ⟨notifyAliveMessage r, (SSDP_ADDR, SSDP_PORT)⟩]
    | .absent => []
    | .faulted => []

/-- `doNotify(usn)`: reads `self.known[usn]`, so an unknown USN raises
`KeyError`. -/
def doNotify (known : Registry) (tr : TransportState) (usn : String) :
    Except PyErr (List Send) :=
  match dictGet? known usn with
  | none => .error (.keyError usn)
  | some r => .ok (doNotifyWrites tr r)

/-- `doByebye(usn)`: the `KeyError` of a missing record is caught
(debug log), the write is guarded by `if self.transport:` and wrapped in
`try`, so no exception escapes and a broken transport writes nothing. -/
def doByebye (known : Registry) (tr : TransportState) (usn : String) : List Send :=
  match dictGet? known usn with
  | none => []
  | some r =>
    match tr with
    | .up => [⟨notifyByebyeMessage r, (SSDP_ADDR, SSDP_PORT)⟩]
    | .absent => []
    | .faulted => []

/-- `register(...)`: build the record, store it under `usn` overwriting
any previous entry, run `doNotify` when the manifestation is local
(the record just stored is the one `doNotify` reads back), and publish
`new_device` whenever `st == 'upnp:rootdevice'`. -/
def register (known : Registry) (tr : TransportState) (now : Int)
    (manifestation usn st location server cacheControl : String)
    (silent : Bool) (host : Option String) :
    Registry × List Event × List Send :=
  let r : ServiceRecord :=
    { usn := usn, location := location, st := st, ext := "",
      server := server, cacheControl := cacheControl,
      manifestation := manifestation, silent := silent,
      host := host, lastSeen := now }
  let known1 := dictSet known usn r
  let sends := if manifestation = "local" then doNotifyWrites tr r else []
  let events := if st = "upnp:rootdevice" then [Event.newDevice st r] else []
  (known1, events, sends)

/-- `unRegister(usn)`: reads `self.known[usn]['ST']` first, so an
unknown USN raises `KeyError`; for a root device the `removed_device`
event is published before the deletion. -/
def unRegister (known : Registry) (usn : String) :
    Except PyErr (Registry × List Event) :=
  match dictGet? known usn with
  | none => .error (.keyError usn)
  | some r =>
    let events := if r.st = "upnp:rootdevice" then [Event.removedDevice r.st r] else []
    .ok (dictDel known usn, events)

/-- `isKnown(usn)`. -/
def isKnown (known : Registry) (usn : String) : Bool :=
  (dictGet? known usn).isSome

/-- Parsed header dict: lowercase names mapped to raw values. -/
abbrev Headers := List (String × String)

/-- Splitting pass over a character list: `sep` is the separator, the
`Nat` is fuel (always at least the list length), the last argument the
reversed current piece.  Written with fuel so the kernel can evaluate
it (`String.splitOn` itself does not reduce). -/
def splitFuelAux (sep : List Char) : Nat → List Char → List Char → List (List Char)
  | _, [], acc => [acc.reverse]
  | 0, cs, acc => [acc.reverse ++ cs]
  | fuel + 1, c :: rest, acc =>
    if sep.isPrefixOf (c :: rest) then
      acc.reverse :: splitFuelAux sep fuel (List.drop (sep.length - 1) rest) []
    else
      splitFuelAux sep fuel rest (c :: acc)

/-- Python `s.split(sep)` for a non-empty separator. -/
def pySplit (s sep : String) : List String :=
  (splitFuelAux sep.data s.data.length s.data []).map String.mk

/-- Python `s.lower()` (ASCII header names only). -/
def pyLower (s : String) : String := String.mk (s.data.map Char.toLower)

/-- Python `s.split(sep, 1)`: split on the first occurrence only. -/
def splitOnce (s sep : String) : List String :=
  match pySplit s sep with
  | [] => [s]
  | [a] => [a]
  | a :: rest => [a, String.intercalate sep rest]

/-- Python `s.replace(old, newSub, 1)`: replace the first occurrence. -/
def replaceFirst (s old newSub : String) : String :=
  match pySplit s old with
  | [] => s
  | [a] => a
  | a :: rest => a ++ newSub ++ String.intercalate old rest

/-- One header line through `string.split(x, ':', 1)` and the lowering
of the name; a line without `:` gives a one-element list whose `[1]`
raises `IndexError`, modelled as `none`. -/
def headerPair? (x : String) : Option (String × String) :=
  match splitOnce x ":" with
  | [a, b] => some (pyLower a, b)
  | _ => none

/-- The parsing head of `datagramReceived`: split off the header block
at the first `CRLF CRLF`, split the request line on spaces, normalize
`': '` to `':'` once per line, drop empty lines, and build the
lowercase header dict (later duplicates overwrite in place, as in a
Python dict built from a pair list).  Returns the two request-line
words and the headers, or the exception the code raises: a datagram
without `CRLF CRLF` makes the tuple unpacking raise `ValueError`, whose
handler runs `pdb.set_trace()` and falls through, after which the
unbound local `header` raises `NameError`; a header line without `:`
or a one-word request line raises `IndexError` (the latter at the
`cmd[1]` in the entry log call, before dispatch). -/
def parseDatagram (data : String) :
    Except PyErr (String × String × Headers) :=
  match pySplit data "\r\n\r\n" with
  | [] => .error .nameError
  | [_] => .error .nameError
  | header :: _ =>
    let lines := pySplit header "\r\n"
    let cmd := pySplit (lines.headD "") " "
    let hlines := ((lines.drop 1).map (fun x => replaceFirst x ": " ":")).filter
      (fun x => x.length > 0)
    match hlines.mapM headerPair? with
    | none => .error .indexError
    | some pairs =>
      let headers := pairs.foldl (fun m kv => dictSet m kv.1 kv.2) []
      match cmd with
      | c0 :: c1 :: _ => .ok (c0, c1, headers)
      | _ => .error .indexError

/-- The record filter of `discoveryRequest`'s loop: skip remote
records, skip silent records when the search target is `ssdp:all`,
match on equal ST or on `ssdp:all`. -/
def searchMatch (st : String) (r : ServiceRecord) : Bool :=
  !(r.manifestation == "remote") &&
  !(st == "ssdp:all" && r.silent) &&
  (r.st == st || st == "ssdp:all")

/-- The records `discoveryRequest` answers, in registry order. -/
def searchMatches (known : Registry) (st : String) : List ServiceRecord :=
  (known.map Prod.snd).filter (searchMatch st)

/-- The `200 OK` response `discoveryRequest` builds for a matching
record: the status line, every record field except `MANIFESTATION`,
`SILENT` and `HOST` (the filter does not exclude `last-seen`), a
`DATE` header, and the blank-line terminator. -/
def searchResponseLines (r : ServiceRecord) (dateStr : String) : List String :=
  ["HTTP/1.1 200 OK"]
  ++ ((recordItems r).filter
        (fun kv => !(kv.1 == "MANIFESTATION" || kv.1 == "SILENT" || kv.1 == "HOST"))).map
      headerLine
  ++ ["DATE: " ++ dateStr]
  ++ ["", ""]

/-- Accumulate the value of a decimal digit string; `none` on any
non-digit. -/
def digitsValAux : List Char → Nat → Option Nat
  | [], acc => some acc
  | c :: rest, acc =>
    if '0' ≤ c ∧ c ≤ '9' then digitsValAux rest (acc * 10 + (c.toNat - 48)) else none

/-- Model of Python `int(s)` on the header strings this code meets: an
optionally sign-prefixed decimal numeral. -/
def pyInt? (s : String) : Option Int :=
  match s.data with
  | [] => none
  | '-' :: rest =>
    if rest.isEmpty then none else (digitsValAux rest 0).map (fun n => -(n : Int))
  | cs => (digitsValAux cs 0).map (fun n => (n : Int))

/-- Schedule one delayed `send_it` per matching record; `rand i`
stands for the `random.randint(0, mx)` draw of the `i`-th match. -/
def scheduleResponses (dateStr : String) (src : Addr) (rand : Nat → Int) :
    Nat → List ServiceRecord → List Delayed
  | _, [] => []
  | i, r :: rest =>
    ⟨rand i, crlfJoin (searchResponseLines r dateStr), src, r.usn⟩
      :: scheduleResponses dateStr src rand (i + 1) rest

/-- `discoveryRequest(headers, (host, port))`: publish the search log
event, then iterate the registry and schedule one randomly delayed
unicast response per match.  `headers['st']` is read up front (missing
ST raises `KeyError`); `headers['mx']` is read only inside the loop, so
with no match a missing or unparsable MX raises nothing; a negative MX
makes `random.randint(0, mx)` raise `ValueError` at the first match. -/
def discoveryRequest (known : Registry) (headers : Headers) (src : Addr)
    (dateStr : String) (rand : Nat → Int) :
    Except PyErr (List Event × List Delayed) :=
  match dictGet? headers "st" with
  | none => .error (.keyError "st")
  | some st =>
    let ms := searchMatches known st
    if ms.isEmpty then
      .ok ([Event.logMsg "SSDP" src.1 ("M-Search for " ++ st)], [])
    else
      match dictGet? headers "mx" with
      | none => .error (.keyError "mx")
      | some mxs =>
        match pyInt? mxs with
        | none => .error (.valueError mxs)
        | some mx =>
          if mx < 0 then .error (.valueError mxs)
          else
            .ok ([Event.logMsg "SSDP" src.1 ("M-Search for " ++ st)],
                 scheduleResponses dateStr src rand 0 ms)

/-- `notifyReceived(headers, (host, port))`.  `headers['nt']` is read
in the entry log call and `headers['nts']` selects the branch (either
missing raises `KeyError`).  For `ssdp:alive`, a known USN gets
`last-seen` refreshed in place and an unknown USN is registered as
remote from the header fields (the `KeyError` of the unknown USN is
caught, but the `KeyError` of a missing `usn`, `location`, `server` or
`cache-control` header escapes); for `ssdp:byebye`, a known USN is
unregistered.  The final log publication reads `headers['usn']` in
every branch. -/
def notifyReceived (known : Registry) (tr : TransportState) (headers : Headers)
    (host : String) (now : Int) :
    Except PyErr (Registry × List Event × List Send) :=
  match dictGet? headers "nt" with
  | none => .error (.keyError "nt")
  | some nt =>
  match dictGet? headers "nts" with
  | none => .error (.keyError "nts")
  | some nts =>
  if nts = "ssdp:alive" then
    match dictGet? headers "usn" with
    | none => .error (.keyError "usn")
    | some usn =>
      match dictGet? known usn with
      | some r =>
        .ok (dictSet known usn { r with lastSeen := now },
             [Event.logMsg "SSDP" host ("Notify " ++ nts ++ " for " ++ usn)], [])
      | none =>
        match dictGet? headers "location" with
        | none => .error (.keyError "location")
        | some location =>
        match dictGet? headers "server" with
        | none => .error (.keyError "server")
        | some server =>
        match dictGet? headers "cache-control" with
        | none => .error (.keyError "cache-control")
        | some cc =>
          let res := register known tr now "remote" usn nt location server cc false (some host)
          .ok (res.1, res.2.1 ++ [Event.logMsg "SSDP" host ("Notify " ++ nts ++ " for " ++ usn)],
               res.2.2)
  else if nts = "ssdp:byebye" then
    match dictGet? headers "usn" with
    | none => .error (.keyError "usn")
    | some usn =>
      if isKnown known usn then
        match unRegister known usn with
        | .error e => .error e
        | .ok (known1, events) =>
          .ok (known1, events ++ [Event.logMsg "SSDP" host ("Notify " ++ nts ++ " for " ++ usn)], [])
      else
        .ok (known, [Event.logMsg "SSDP" host ("Notify " ++ nts ++ " for " ++ usn)], [])
  else
    match dictGet? headers "usn" with
    | none => .error (.keyError "usn")
    | some usn =>
      .ok (known, [Event.logMsg "SSDP" host ("Notify " ++ nts ++ " for " ++ usn)], [])

/-- Everything a completed `datagramReceived` call produced. -/
structure DgramResult where
  known : Registry
  events : List Event
  sends : List Send
  delayed : List Delayed
  deriving DecidableEq, Repr

/-- The dispatch step of `datagramReceived`, between the parse and the
final `datagram_received` publication: `M-SEARCH *` goes to
`discoveryRequest`, `NOTIFY *` to `notifyReceived`, anything else only
logs a warning. -/
def dispatchCommand (known : Registry) (tr : TransportState)
    (c0 c1 : String) (headers : Headers) (src : Addr)
    (now : Int) (dateStr : String) (rand : Nat → Int) :
    Except PyErr (Registry × List Event × List Send × List Delayed) :=
  if c0 = "M-SEARCH" ∧ c1 = "*" then
    match discoveryRequest known headers src dateStr rand with
    | .error e => .error e
    | .ok (events, delayed) => .ok (known, events, [], delayed)
  else if c0 = "NOTIFY" ∧ c1 = "*" then
    match notifyReceived known tr headers src.1 now with
    | .error e => .error e
    | .ok (known1, events, sends) => .ok (known1, events, sends, [])
  else
    .ok (known, [], [], [])

/-- `datagramReceived(data, (host, port))`: parse, dispatch, then
publish `datagram_received` with the raw data.  An exception from the
parse or the dispatch escapes the handler and the publication never
happens. -/
def datagramReceived (known : Registry) (tr : TransportState)
    (data : String) (src : Addr) (now : Int) (dateStr : String)
    (rand : Nat → Int) : Except PyErr DgramResult :=
  match parseDatagram data with
  | .error e => .error e
  | .ok (c0, c1, headers) =>
    match dispatchCommand known tr c0 c1 headers src now dateStr rand with
    | .error e => .error e
    | .ok (known1, events, sends, delayed) =>
      .ok ⟨known1, events ++ [Event.datagramReceived data src.1 src.2], sends, delayed⟩

/-- `cache_control.split('=')` must give exactly two parts (else the
tuple unpacking raises `ValueError`) and the second must parse under
`int` — `check_valid`'s reading of a record's max-age. -/
def parseMaxAge? (s : String) : Option Int :=
  match pySplit s "=" with
  | [_, v] => pyInt? v
  | _ => none

/-- The collection pass of `check_valid`: walk the registry in order,
skip local records, parse each remaining record's `CACHE-CONTROL`, and
collect the USNs whose `last-seen + expiry + 30 < now`, publishing
`removed_device` for root devices as they are found. -/
def expiryScan (now : Int) : Registry → Except PyErr (List String × List Event)
  | [] => .ok ([], [])
  | (usn, r) :: rest =>
    if r.manifestation = "local" then expiryScan now rest
    else
      match parseMaxAge? r.cacheControl with
      | none => .error (.valueError r.cacheControl)
      | some expiry =>
        match expiryScan now rest with
        | .error e => .error e
        | .ok (removable, events) =>
          if r.lastSeen + expiry + 30 < now then
            .ok (usn :: removable,
                 (if r.st = "upnp:rootdevice" then [Event.removedDevice r.st r] else [])
                   ++ events)
          else .ok (removable, events)

/-- `check_valid()`: run the scan, then delete every collected USN. -/
def check_valid (known : Registry) (now : Int) :
    Except PyErr (Registry × List Event) :=
  match expiryScan now known with
  | .error e => .error e
  | .ok (removable, events) => .ok (removable.foldl dictDel known, events)

/-- `resendNotify()`: `doNotify` for every local record, in registry
order (writes only; a local record always exists when read back). -/
def resendNotify (known : Registry) (tr : TransportState) : List Send :=
  (((known.filter (fun p => p.2.manifestation = "local")).map Prod.fst).map
    (fun usn => match dictGet? known usn with
                | none => []
                | some r => doNotifyWrites tr r)).flatten

/-- One externally visible step of `shutdown()`. -/
inductive ShutAction where
  | cancelCall (callId : Nat)
  | stopTicker (tickerId : String)
  | byebye (usn : String)
  deriving DecidableEq, Repr

/-- `shutdown()`: cancel every pending `send_it` delayed call first,
then, outside test mode, stop each running ticker and call `doByebye`
for every local record, in registry order.  `pending` lists the ids of
the pending `send_it` calls in `reactor.getDelayedCalls()` order. -/
def shutdown (pending : List Nat) (test resendRunning checkRunning : Bool)
    (known : Registry) : List ShutAction :=
  pending.map ShutAction.cancelCall
  ++ (if test then [] else
      (if resendRunning then [ShutAction.stopTicker "resend_notify"] else [])
      ++ (if checkRunning then [ShutAction.stopTicker "check_valid"] else [])
      ++ (known.filter (fun p => p.2.manifestation = "local")).map
           (fun p => ShutAction.byebye p.1))

/-- The transport writes of shutdown's byebye pass, for whatever
transport state holds at shutdown (`doByebye` never raises). -/
def shutdownWrites (known : Registry) (tr : TransportState) : List Send :=
  (((known.filter (fun p => p.2.manifestation = "local")).map Prod.fst).map
    (doByebye known tr)).flatten

/-! Concrete fixtures used by witnesses and counterexamples: a local
root device, a silent local service, and a discovered remote root
device. -/

/-- A local, non-silent root-device record. -/
def sampleLocal : ServiceRecord :=
  ⟨"uuid:a::upnp:rootdevice", "http://10.0.0.1/desc.xml", "upnp:rootdevice", "",
   "Srv/1", "max-age=1800", "local", false, none, 100⟩

/-- A silent local service record. -/
def sampleSilent : ServiceRecord :=
  ⟨"uuid:b::cd", "http://10.0.0.1/cd.xml", "urn:schemas-upnp-org:service:ContentDirectory:1", "",
   "Srv/1", "max-age=1800", "local", true, none, 100⟩

/-- A remote root-device record with a one-second max-age. -/
def sampleRemote : ServiceRecord :=
  ⟨"uuid:c::upnp:rootdevice", "http://10.0.0.9/d.xml", "upnp:rootdevice", "",
   "Other/2", "max-age=1", "remote", false, some "10.0.0.9", 100⟩

/-- A registry holding the three sample records. -/
def sampleRegistry : Registry :=
  [("uuid:a::upnp:rootdevice", sampleLocal), ("uuid:b::cd", sampleSilent),
   ("uuid:c::upnp:rootdevice", sampleRemote)]

/-- C1: a datagram without `CRLF CRLF` (the spec's "hello world"
garbage) does not produce a logged warning and a normal return: the
`except ValueError` arm drops into `pdb.set_trace()` and the handler
then raises `NameError` on the unbound `header`, so the exception
escapes `datagramReceived`. -/
theorem C1_malformed_datagram_crashes :
    datagramReceived sampleRegistry .up "hello world" ("10.0.0.5", 45000) 200 "DATE0"
      (fun _ => 0) = .error PyErr.nameError := by decide

/-- C3, the code at the failing input: the `200 OK` built for a match
keeps every record field except `MANIFESTATION`, `SILENT` and `HOST`,
so the internal `last-seen` timestamp is emitted on the wire alongside
the six specified headers and `DATE`. -/
theorem C3_response_contains_last_seen :
    searchResponseLines sampleLocal "DATE0"
      = ["HTTP/1.1 200 OK", "USN: uuid:a::upnp:rootdevice",
         "LOCATION: http://10.0.0.1/desc.xml", "ST: upnp:rootdevice", "EXT: ",
         "SERVER: Srv/1", "CACHE-CONTROL: max-age=1800", "last-seen: 100",
         "DATE: DATE0", "", ""] := by decide

/-- C4 counterexample: `unRegister` on a USN absent from the registry
is not a silent no-op — it raises `KeyError`. -/
theorem C4_counterexample :
    unRegister sampleRegistry "uuid:unknown" = .error (.keyError "uuid:unknown") := by decide

/-- C4 amended: `unRegister` on an unknown USN raises `KeyError`; the
raise happens on the first line, before any event or deletion, so the
registry is untouched and nothing is published. -/
theorem C4_unknown_usn_raises (known : Registry) (usn : String)
    (h : dictGet? known usn = none) :
    unRegister known usn = .error (.keyError usn) := by
  unfold unRegister; rw [h]

theorem C4_unknown_usn_raises_witness :
    dictGet? sampleRegistry "uuid:x" = none ∧
      unRegister sampleRegistry "uuid:x" = .error (.keyError "uuid:x") :=
  ⟨by decide, C4_unknown_usn_raises sampleRegistry "uuid:x" (by decide)⟩

/-- C5 counterexample: re-registering a USN already present with
`st = upnp:rootdevice` publishes `new_device` again — presence is
never checked. -/
theorem C5_counterexample :
    (dictGet? sampleRegistry "uuid:a::upnp:rootdevice").isSome = true ∧
    (register sampleRegistry .up 300 "local" "uuid:a::upnp:rootdevice" "upnp:rootdevice"
        "http://10.0.0.1/desc.xml" "Srv/1" "max-age=1800" false none).2.1
      = [Event.newDevice "upnp:rootdevice"
          ⟨"uuid:a::upnp:rootdevice", "http://10.0.0.1/desc.xml", "upnp:rootdevice", "",
           "Srv/1", "max-age=1800", "local", false, none, 300⟩] := by
  exact ⟨by decide, by decide⟩

/-- C5 amended: `register` publishes `new_device` if and only if the
record's `st` equals `upnp:rootdevice`, regardless of whether the USN
was previously registered. -/
theorem C5_new_device_iff_rootdevice (known : Registry) (tr : TransportState) (now : Int)
    (manifestation usn st location server cacheControl : String)
    (silent : Bool) (host : Option String) :
    (register known tr now manifestation usn st location server cacheControl silent host).2.1
      = if st = "upnp:rootdevice"
        then [Event.newDevice st
               ⟨usn, location, st, "", server, cacheControl, manifestation, silent, host, now⟩]
        else [] := rfl

/-- Every delay in a scheduled batch is one of the `randint` draws. -/
theorem scheduleResponses_delay_mem (dateStr : String) (src : Addr) (rand : Nat → Int) :
    ∀ (i : Nat) (ms : List ServiceRecord) (d : Delayed),
      d ∈ scheduleResponses dateStr src rand i ms → ∃ j, d.delay = rand j := by
  intro i ms
  induction ms generalizing i with
  | nil => intro d h; simp [scheduleResponses] at h
  | cons r rest ih =>
    intro d h
    rw [scheduleResponses, List.mem_cons] at h
    rcases h with h | h
    · exact ⟨i, by rw [h]⟩
    · exact ih (i + 1) d h

/-- C2 counterexample: with `MX = 10` the code draws
`random.randint(0, 10)`; the draw `10` is a possible outcome, and the
scheduled delay is then `10`, outside `[0, min(MX, 5)] = [0, 5]`. -/
theorem C2_counterexample :
    (discoveryRequest sampleRegistry [("st", "upnp:rootdevice"), ("mx", "10")]
        ("10.0.0.5", 45000) "DATE0" (fun _ => 10)).map (fun res => res.2.map Delayed.delay)
      = Except.ok [10] ∧ ¬ ((10 : Int) ≤ min 10 5) :=
  ⟨by decide, by decide⟩

/-- C2 amended: each scheduled response delay is an integer in
`[0, MX]` (the bounds of `random.randint(0, int(headers['mx']))`); the
code never clamps MX to 5. -/
theorem C2_delays_within_randint_range (known : Registry) (headers : Headers)
    (src : Addr) (dateStr : String) (rand : Nat → Int) (mxs : String) (mx : Int)
    (events : List Event) (ds : List Delayed)
    (hmx : dictGet? headers "mx" = some mxs)
    (hparse : pyInt? mxs = some mx)
    (hrand : ∀ i, 0 ≤ rand i ∧ rand i ≤ mx)
    (hok : discoveryRequest known headers src dateStr rand = .ok (events, ds)) :
    ∀ d ∈ ds, 0 ≤ d.delay ∧ d.delay ≤ mx := by
  unfold discoveryRequest at hok
  cases hst : dictGet? headers "st" with
  | none => rw [hst] at hok; cases hok
  | some st =>
    rw [hst] at hok
    simp only [hmx, hparse] at hok
    by_cases hment : (searchMatches known st).isEmpty = true
    · rw [if_pos hment] at hok
      injection hok with h
      injection h with h1 h2
      subst h2
      intro d hd
      cases hd
    · rw [if_neg hment] at hok
      by_cases hneg : mx < 0
      · rw [if_pos hneg] at hok; cases hok
      · rw [if_neg hneg] at hok
        injection hok with h
        injection h with h1 h2
        subst h2
        intro d hd
        obtain ⟨j, hj⟩ := scheduleResponses_delay_mem dateStr src rand 0 _ d hd
        rw [hj]; exact hrand j

theorem C2_delays_witness :
    dictGet? [(("st" : String), ("ssdp:all" : String)), ("mx", "3")] "mx" = some "3" ∧
    pyInt? "3" = some 3 ∧
    ∀ d ∈ [(⟨2, crlfJoin (searchResponseLines sampleLocal "DATE0"),
             (("10.0.0.5" : String), (45000 : Nat)), "uuid:a::upnp:rootdevice"⟩ : Delayed)],
      0 ≤ d.delay ∧ d.delay ≤ 3 := by
  refine ⟨by decide, by decide, ?_⟩
  set_option maxRecDepth 4000 in
  exact C2_delays_within_randint_range sampleRegistry
    [("st", "ssdp:all"), ("mx", "3")] ("10.0.0.5", 45000) "DATE0" (fun _ => 2) "3" 3
    [Event.logMsg "SSDP" "10.0.0.5" "M-Search for ssdp:all"] _
    (by decide) (by decide)
    (fun i => ⟨show (0 : Int) ≤ 2 by decide, show (2 : Int) ≤ 3 by decide⟩) (by decide)

/-- C6 counterexample: a recognized `NOTIFY *` datagram whose headers
lack `nts` makes `notifyReceived` raise `KeyError('nts')`, the
exception escapes `datagramReceived`, and the `datagram_received`
publication never happens. -/
theorem C6_counterexample :
    datagramReceived sampleRegistry .up "NOTIFY * HTTP/1.1\r\nNT:x\r\nUSN:u\r\n\r\n"
      ("10.0.0.5", 1900) 200 "DATE0" (fun _ => 0) = .error (.keyError "nts") := by decide

/-- C6 amended: whenever `datagramReceived` completes without an
exception the last published event is `datagram_received` with the raw
bytes; but a recognized `NOTIFY` whose headers lack `nts` (similarly
the other required headers) raises `KeyError`, which escapes the
handler, so the publication does not happen on that path. -/
theorem C6_datagram_event_after_dispatch :
    (∀ (known : Registry) (tr : TransportState) (data : String) (src : Addr)
        (now : Int) (dateStr : String) (rand : Nat → Int) (res : DgramResult),
        datagramReceived known tr data src now dateStr rand = .ok res →
        res.events.getLast? = some (Event.datagramReceived data src.1 src.2))
    ∧ (∀ (known : Registry) (tr : TransportState) (data : String) (src : Addr)
        (now : Int) (dateStr : String) (rand : Nat → Int) (headers : Headers) (nt : String),
        parseDatagram data = .ok ("NOTIFY", "*", headers) →
        dictGet? headers "nt" = some nt →
        dictGet? headers "nts" = none →
        datagramReceived known tr data src now dateStr rand = .error (.keyError "nts")) := by
  constructor
  · intro known tr data src now dateStr rand res hok
    unfold datagramReceived at hok
    split at hok
    · cases hok
    · split at hok
      · cases hok
      · injection hok with h
        subst h
        simp
  · intro known tr data src now dateStr rand headers nt hp hnt hnts
    have hn : notifyReceived known tr headers src.1 now = .error (.keyError "nts") := by
      simp only [notifyReceived, hnt, hnts]
    have hdisp : dispatchCommand known tr "NOTIFY" "*" headers src now dateStr rand
        = .error (.keyError "nts") := by
      unfold dispatchCommand
      rw [if_neg (by decide), if_pos (by decide)]
      simp only [hn]
    simp only [datagramReceived, hp, hdisp]

theorem C6_datagram_event_witness :
    (datagramReceived [] .up "FOO * HTTP/1.1\r\n\r\n" ("10.0.0.7", 1234) 0 "DATE0" (fun _ => 0)
       = .ok ⟨[], [Event.datagramReceived "FOO * HTTP/1.1\r\n\r\n" "10.0.0.7" 1234], [], []⟩)
    ∧ (⟨[], [Event.datagramReceived "FOO * HTTP/1.1\r\n\r\n" "10.0.0.7" 1234], [], []⟩
        : DgramResult).events.getLast?
        = some (Event.datagramReceived "FOO * HTTP/1.1\r\n\r\n" "10.0.0.7" 1234)
    ∧ datagramReceived [] .up "NOTIFY * HTTP/1.1\r\nNT:y\r\nUSN:v\r\n\r\n"
        ("10.0.0.7", 1234) 0 "DATE0" (fun _ => 0) = .error (.keyError "nts") := by
  refine ⟨by decide, ?_, ?_⟩
  · exact C6_datagram_event_after_dispatch.1 [] .up "FOO * HTTP/1.1\r\n\r\n" ("10.0.0.7", 1234)
      0 "DATE0" (fun _ => 0) _ (by decide)
  · exact C6_datagram_event_after_dispatch.2 [] .up "NOTIFY * HTTP/1.1\r\nNT:y\r\nUSN:v\r\n\r\n"
      ("10.0.0.7", 1234) 0 "DATE0" (fun _ => 0) [("nt", "y"), ("usn", "v")] "y"
      (by decide) (by decide) (by decide)

/-- C10: for a local record, `doNotify` writes nothing when the record
is silent, and otherwise writes the identical alive datagram to the
multicast group twice back-to-back. -/
theorem C10_doNotify_silent_or_twice (known : Registry) (usn : String) (r : ServiceRecord)
    (h : dictGet? known usn = some r) ( _hlocal : r.manifestation = "local") :
    doNotify known .up usn
      = .ok (if r.silent then []
             else [⟨notifyAliveMessage r, (SSDP_ADDR, SSDP_PORT)⟩,
                   ⟨notifyAliveMessage r, (SSDP_ADDR, SSDP_PORT)⟩]) := by
  unfold doNotify doNotifyWrites
  rw [h]

theorem C10_doNotify_witness :
    sampleLocal.manifestation = "local" ∧ sampleSilent.manifestation = "local" ∧
    doNotify sampleRegistry .up "uuid:a::upnp:rootdevice"
      = .ok [⟨notifyAliveMessage sampleLocal, (SSDP_ADDR, SSDP_PORT)⟩,
             ⟨notifyAliveMessage sampleLocal, (SSDP_ADDR, SSDP_PORT)⟩] ∧
    doNotify sampleRegistry .up "uuid:b::cd" = .ok [] := by
  refine ⟨rfl, rfl, ?_, ?_⟩
  · have := C10_doNotify_silent_or_twice sampleRegistry "uuid:a::upnp:rootdevice" sampleLocal
      (by decide) rfl
    simpa [sampleLocal] using this
  · have := C10_doNotify_silent_or_twice sampleRegistry "uuid:b::cd" sampleSilent
      (by decide) rfl
    simpa [sampleSilent] using this

/-- With no duplicate keys, two registry entries with the same key are
the same entry. -/
theorem mem_keys_unique {α : Type} {m : List (String × α)}
    (h : (m.map Prod.fst).Nodup) {p q : String × α}
    (hp : p ∈ m) (hq : q ∈ m) (hk : p.1 = q.1) : p = q := by
  induction m with
  | nil => cases hp
  | cons a rest ih =>
    rw [List.map_cons, List.nodup_cons] at h
    rcases List.mem_cons.mp hp with rfl | hp1
    · rcases List.mem_cons.mp hq with rfl | hq1
      · rfl
      · exact absurd (hk ▸ List.mem_map_of_mem Prod.fst hq1) h.1
    · rcases List.mem_cons.mp hq with rfl | hq1
      · exact absurd (hk ▸ List.mem_map_of_mem Prod.fst hp1) h.1
      · exact ih h.2 hp1 hq1

/-- With no duplicate keys, looking up the key of a registry entry
returns that entry's value. -/
theorem dictGet?_eq_of_mem_nodup {α : Type} {m : List (String × α)}
    (h : (m.map Prod.fst).Nodup) {p : String × α} (hp : p ∈ m) :
    dictGet? m p.1 = some p.2 := by
  induction m with
  | nil => cases hp
  | cons a rest ih =>
    rw [List.map_cons, List.nodup_cons] at h
    rcases List.mem_cons.mp hp with rfl | hp1
    · unfold dictGet?
      rw [List.find?_cons_of_pos _ (by simp)]
      rfl
    · have hne : ¬ (a.1 = p.1) := fun he => h.1 (he ▸ List.mem_map_of_mem Prod.fst hp1)
      unfold dictGet?
      rw [List.find?_cons_of_neg _ (by simpa using hne)]
      exact ih h.2 hp1

theorem flatten_map_singleton {α β : Type} (g : α → β) :
    ∀ l : List α, (l.map (fun a => [g a])).flatten = l.map g := by
  intro l
  induction l with
  | nil => rfl
  | cons a rest ih => simp [ih]

theorem flatten_map_nil {α β : Type} :
    ∀ l : List α, (l.map (fun _ => ([] : List β))).flatten = [] := by
  intro l
  induction l with
  | nil => rfl
  | cons a rest ih => simp [ih]

/-- Deleting a batch of keys is filtering out entries keyed by them. -/
theorem foldl_dictDel_eq_filter {α : Type} :
    ∀ (rems : List String) (m : List (String × α)),
      rems.foldl dictDel m = m.filter (fun p => decide (p.1 ∉ rems)) := by
  intro rems
  induction rems with
  | nil => intro m; simp
  | cons k ks ih =>
    intro m
    rw [List.foldl_cons, ih]
    unfold dictDel
    rw [List.filter_filter]
    apply List.filter_congr
    intro p _
    by_cases h1 : p.1 = k <;> by_cases h2 : p.1 ∈ ks <;>
      simp [h1, h2, List.mem_cons]

/-- The records matched for `ST: ssdp:all` are exactly the local,
non-silent records. -/
theorem searchMatches_ssdp_all (known : Registry)
    (hman : ∀ p ∈ known, p.2.manifestation = "local" ∨ p.2.manifestation = "remote") :
    searchMatches known "ssdp:all"
      = (known.map Prod.snd).filter (fun r => r.manifestation == "local" && !r.silent) := by
  unfold searchMatches
  apply List.filter_congr
  intro r hr
  obtain ⟨p, hp, rfl⟩ := List.mem_map.mp hr
  unfold searchMatch
  rcases hman p hp with h | h <;> rw [h] <;> simp

/-- The scheduled batch answers the matched records one-for-one, in
order. -/
theorem scheduleResponses_map_usn (dateStr : String) (src : Addr) (rand : Nat → Int) :
    ∀ (i : Nat) (ms : List ServiceRecord),
      (scheduleResponses dateStr src rand i ms).map Delayed.usn
        = ms.map ServiceRecord.usn := by
  intro i ms
  induction ms generalizing i with
  | nil => rfl
  | cons r rest ih => simp [scheduleResponses, ih]

/-- Every scheduled response is addressed to the search's source. -/
theorem scheduleResponses_dest (dateStr : String) (src : Addr) (rand : Nat → Int) :
    ∀ (i : Nat) (ms : List ServiceRecord) (d : Delayed),
      d ∈ scheduleResponses dateStr src rand i ms → d.dest = src := by
  intro i ms
  induction ms generalizing i with
  | nil => intro d h; cases h
  | cons r rest ih =>
    intro d h
    rw [scheduleResponses, List.mem_cons] at h
    rcases h with h | h
    · rw [h]
    · exact ih (i + 1) d h

/-- C8: an `M-SEARCH` for `ssdp:all` schedules exactly one unicast
response, back to the search's source, for each local non-silent
record, in registry order — and none for silent or remote records. -/
theorem C8_ssdp_all_responses (known : Registry) (headers : Headers) (src : Addr)
    (dateStr : String) (rand : Nat → Int) (mxs : String) (mx : Int)
    (hst : dictGet? headers "st" = some "ssdp:all")
    (hmx : dictGet? headers "mx" = some mxs)
    (hparse : pyInt? mxs = some mx)
    (hmxnn : ¬ mx < 0)
    (hman : ∀ p ∈ known, p.2.manifestation = "local" ∨ p.2.manifestation = "remote") :
    ∃ ds : List Delayed,
      discoveryRequest known headers src dateStr rand
        = .ok ([Event.logMsg "SSDP" src.1 "M-Search for ssdp:all"], ds)
      ∧ ds.map Delayed.usn
          = ((known.map Prod.snd).filter
              (fun r => r.manifestation == "local" && !r.silent)).map ServiceRecord.usn
      ∧ ∀ d ∈ ds, d.dest = src := by
  refine ⟨scheduleResponses dateStr src rand 0 (searchMatches known "ssdp:all"), ?_, ?_, ?_⟩
  · unfold discoveryRequest
    rw [hst]
    simp only [hmx, hparse]
    by_cases hment : (searchMatches known "ssdp:all").isEmpty = true
    · rw [if_pos hment, List.isEmpty_iff.mp hment]
      rfl
    · rw [if_neg hment, if_neg hmxnn]
      rfl
  · rw [searchMatches_ssdp_all known hman, scheduleResponses_map_usn]
  · intro d hd
    exact scheduleResponses_dest dateStr src rand 0 _ d hd

theorem C8_ssdp_all_witness :
    dictGet? [(("st" : String), ("ssdp:all" : String)), ("mx", "2")] "st" = some "ssdp:all" ∧
    (∀ p ∈ sampleRegistry,
      p.2.manifestation = "local" ∨ p.2.manifestation = "remote") ∧
    ∃ ds : List Delayed,
      discoveryRequest sampleRegistry [("st", "ssdp:all"), ("mx", "2")] ("10.0.0.5", 45000)
          "DATE0" (fun _ => 1)
        = .ok ([Event.logMsg "SSDP" "10.0.0.5" "M-Search for ssdp:all"], ds)
      ∧ ds.map Delayed.usn
          = ((sampleRegistry.map Prod.snd).filter
              (fun r => r.manifestation == "local" && !r.silent)).map ServiceRecord.usn
      ∧ ∀ d ∈ ds, d.dest = ("10.0.0.5", 45000) := by
  refine ⟨by decide, by decide, ?_⟩
  exact C8_ssdp_all_responses sampleRegistry [("st", "ssdp:all"), ("mx", "2")]
    ("10.0.0.5", 45000) "DATE0" (fun _ => 1) "2" 2
    (by decide) (by decide) (by decide) (by decide) (by decide)

/-- C9 counterexample: with one pending delayed send, two running
tickers and the sample registry, shutdown's actual trace cancels the
delayed call first; the order the claim states (tickers first, then
cancellation) is not the trace produced. -/
theorem C9_counterexample :
    shutdown [7] false true true sampleRegistry
      = [ShutAction.cancelCall 7, ShutAction.stopTicker "resend_notify",
         ShutAction.stopTicker "check_valid", ShutAction.byebye "uuid:a::upnp:rootdevice",
         ShutAction.byebye "uuid:b::cd"]
    ∧ shutdown [7] false true true sampleRegistry
      ≠ [ShutAction.stopTicker "resend_notify", ShutAction.stopTicker "check_valid",
         ShutAction.cancelCall 7, ShutAction.byebye "uuid:a::upnp:rootdevice",
         ShutAction.byebye "uuid:b::cd"] :=
  ⟨by decide, by decide⟩

/-- C9 amended: shutdown cancels every pending delayed response send
first, then stops both tickers, then runs `doByebye` for each local
record; with a live transport that emits exactly one byebye datagram
per local record, and with an absent or faulted transport the byebye
pass still completes without raising, emitting nothing. -/
theorem C9_shutdown_sequence (pending : List Nat) (known : Registry)
    (hnodup : (known.map Prod.fst).Nodup) :
    shutdown pending false true true known
      = pending.map ShutAction.cancelCall
        ++ ([ShutAction.stopTicker "resend_notify", ShutAction.stopTicker "check_valid"]
            ++ (known.filter (fun p => p.2.manifestation = "local")).map
                 (fun p => ShutAction.byebye p.1))
    ∧ shutdownWrites known .up
        = (known.filter (fun p => p.2.manifestation = "local")).map
            (fun p => ⟨notifyByebyeMessage p.2, (SSDP_ADDR, SSDP_PORT)⟩)
    ∧ (∀ tr, tr ≠ TransportState.up → shutdownWrites known tr = []) := by
  refine ⟨by simp [shutdown], ?_, ?_⟩
  · unfold shutdownWrites
    rw [List.map_map]
    have hpt : ∀ p ∈ known.filter (fun p => p.2.manifestation = "local"),
        (doByebye known .up ∘ Prod.fst) p
          = [⟨notifyByebyeMessage p.2, (SSDP_ADDR, SSDP_PORT)⟩] := by
      intro p hp
      have hm : p ∈ known := (List.mem_filter.mp hp).1
      have hg := dictGet?_eq_of_mem_nodup hnodup hm
      show doByebye known .up p.1 = _
      unfold doByebye
      rw [hg]
    rw [List.map_congr_left hpt]
    exact flatten_map_singleton _ _
  · intro tr htr
    have hbb : ∀ usn, doByebye known tr usn = [] := by
      intro usn
      unfold doByebye
      cases dictGet? known usn with
      | none => rfl
      | some r => cases tr with
        | up => exact absurd rfl htr
        | absent => rfl
        | faulted => rfl
    unfold shutdownWrites
    rw [List.map_map, List.map_congr_left (fun p _ => hbb p.1)]
    exact flatten_map_nil _

theorem C9_shutdown_witness :
    (sampleRegistry.map Prod.fst).Nodup ∧
    shutdown [4, 9] false true true sampleRegistry
      = [ShutAction.cancelCall 4, ShutAction.cancelCall 9].map id
        ++ ([ShutAction.stopTicker "resend_notify", ShutAction.stopTicker "check_valid"]
            ++ (sampleRegistry.filter (fun p => p.2.manifestation = "local")).map
                 (fun p => ShutAction.byebye p.1))
    ∧ shutdownWrites sampleRegistry .up
        = (sampleRegistry.filter (fun p => p.2.manifestation = "local")).map
            (fun p => ⟨notifyByebyeMessage p.2, (SSDP_ADDR, SSDP_PORT)⟩)
    ∧ shutdownWrites sampleRegistry .absent = [] := by
  have h := C9_shutdown_sequence [4, 9] sampleRegistry (by decide)
  exact ⟨by decide, by simpa using h.1, h.2.1, h.2.2 .absent (by decide)⟩

/-- The per-record removal condition of `check_valid`: not local, and
`last-seen + max-age + 30` strictly before `now`. -/
def recordExpired (now : Int) (r : ServiceRecord) : Bool :=
  !(r.manifestation == "local") &&
  (match parseMaxAge? r.cacheControl with
   | some a => decide (r.lastSeen + a + 30 < now)
   | none => false)

/-- The `removed_device` publications of one sweep, in registry order:
one per expired root device. -/
def expiryEvents (now : Int) (known : Registry) : List Event :=
  ((known.filter (fun p => recordExpired now p.2)).map
    (fun p => if p.2.st = "upnp:rootdevice"
              then [Event.removedDevice p.2.st p.2] else [])).flatten

/-- The collection pass gathers exactly the expired records' USNs and
events, provided every non-local record's `CACHE-CONTROL` parses. -/
theorem expiryScan_eq (now : Int) :
    ∀ known : Registry,
      (∀ p ∈ known, p.2.manifestation ≠ "local" →
        (parseMaxAge? p.2.cacheControl).isSome = true) →
      expiryScan now known
        = .ok ((known.filter (fun p => recordExpired now p.2)).map Prod.fst,
               expiryEvents now known) := by
  intro known
  induction known with
  | nil => intro _; rfl
  | cons p rest ih =>
    intro hparse
    obtain ⟨usn, r⟩ := p
    have hrest := fun q hq => hparse q (List.mem_cons_of_mem _ hq)
    by_cases hloc : r.manifestation = "local"
    · have hexp : recordExpired now r = false := by
        unfold recordExpired
        rw [hloc]
        simp
      simp only [expiryScan, if_pos hloc, ih hrest, expiryEvents, List.filter_cons, hexp]
      rfl
    · have hps := hparse (usn, r) (List.mem_cons_self _ _) hloc
      obtain ⟨a, ha⟩ := Option.isSome_iff_exists.mp hps
      by_cases hlt : r.lastSeen + a + 30 < now
      · have hexp : recordExpired now r = true := by
          unfold recordExpired
          rw [ha]
          simp [hloc, hlt]
        simp only [expiryScan, if_neg hloc, ha, ih hrest, if_pos hlt, expiryEvents,
          List.filter_cons, hexp]
        rfl
      · have hexp : recordExpired now r = false := by
          unfold recordExpired
          rw [ha]
          simp [hlt]
        simp only [expiryScan, if_neg hloc, ha, ih hrest, if_neg hlt, expiryEvents,
          List.filter_cons, hexp]
        rfl

/-- `check_valid` keeps exactly the records that are local or not past
their deadline, and publishes `removed_device` for each expired root
device. -/
theorem check_valid_filters (known : Registry) (now : Int)
    (hparse : ∀ p ∈ known, p.2.manifestation ≠ "local" →
      (parseMaxAge? p.2.cacheControl).isSome = true)
    (hnodup : (known.map Prod.fst).Nodup) :
    check_valid known now
      = .ok (known.filter (fun p => !(recordExpired now p.2)), expiryEvents now known) := by
  simp only [check_valid, expiryScan_eq now known hparse, foldl_dictDel_eq_filter]
  have hAB : known.filter
        (fun p => decide (p.1 ∉ (known.filter (fun q => recordExpired now q.2)).map Prod.fst))
      = known.filter (fun p => !(recordExpired now p.2)) := by
    apply List.filter_congr
    intro p hp
    by_cases he : recordExpired now p.2 = true
    · have hmem : p.1 ∈ (known.filter (fun q => recordExpired now q.2)).map Prod.fst :=
        List.mem_map_of_mem Prod.fst (List.mem_filter.mpr ⟨hp, he⟩)
      simp [he, hmem]
    · have hnmem : p.1 ∉ (known.filter (fun q => recordExpired now q.2)).map Prod.fst := by
        intro hmem
        obtain ⟨q, hq, hqk⟩ := List.mem_map.mp hmem
        obtain ⟨hqm, hqe⟩ := List.mem_filter.mp hq
        have hpq := mem_keys_unique hnodup hp hqm hqk.symm
        exact he (by rw [hpq]; exact hqe)
      simp [he, hnmem]
  rw [hAB]

/-- C7: the remote record lifecycle.  (i) `NOTIFY ssdp:alive` for an
unknown USN stores a remote record built from the headers (`nt`
becomes `st`; `location`, `server`, `cache-control` and the source
host are copied, `last-seen` is `now`); (ii) `ssdp:alive` for a known
USN only refreshes `last-seen`; (iii) `ssdp:byebye` for a known USN
removes the record; (iv) the sweep keeps a record iff it is local or
`last-seen + max-age + 30 < now` fails, publishing `removed_device`
for each expired root device. -/
theorem C7_remote_lifecycle :
    (∀ (known : Registry) (tr : TransportState) (headers : Headers) (host : String)
        (now : Int) (nt usn location server cc : String),
        dictGet? headers "nt" = some nt →
        dictGet? headers "nts" = some "ssdp:alive" →
        dictGet? headers "usn" = some usn →
        dictGet? known usn = none →
        dictGet? headers "location" = some location →
        dictGet? headers "server" = some server →
        dictGet? headers "cache-control" = some cc →
        notifyReceived known tr headers host now
          = .ok (dictSet known usn
                   ⟨usn, location, nt, "", server, cc, "remote", false, some host, now⟩,
                 (if nt = "upnp:rootdevice"
                  then [Event.newDevice nt
                         ⟨usn, location, nt, "", server, cc, "remote", false, some host, now⟩]
                  else [])
                   ++ [Event.logMsg "SSDP" host ("Notify ssdp:alive for " ++ usn)], []))
    ∧ (∀ (known : Registry) (tr : TransportState) (headers : Headers) (host : String)
        (now : Int) (nt usn : String) (r : ServiceRecord),
        dictGet? headers "nt" = some nt →
        dictGet? headers "nts" = some "ssdp:alive" →
        dictGet? headers "usn" = some usn →
        dictGet? known usn = some r →
        notifyReceived known tr headers host now
          = .ok (dictSet known usn { r with lastSeen := now },
                 [Event.logMsg "SSDP" host ("Notify ssdp:alive for " ++ usn)], []))
    ∧ (∀ (known : Registry) (tr : TransportState) (headers : Headers) (host : String)
        (now : Int) (nt usn : String) (r : ServiceRecord),
        dictGet? headers "nt" = some nt →
        dictGet? headers "nts" = some "ssdp:byebye" →
        dictGet? headers "usn" = some usn →
        dictGet? known usn = some r →
        notifyReceived known tr headers host now
          = .ok (dictDel known usn,
                 (if r.st = "upnp:rootdevice" then [Event.removedDevice r.st r] else [])
                   ++ [Event.logMsg "SSDP" host ("Notify ssdp:byebye for " ++ usn)], []))
    ∧ (∀ (known : Registry) (now : Int),
        (∀ p ∈ known, p.2.manifestation ≠ "local" →
          (parseMaxAge? p.2.cacheControl).isSome = true) →
        (known.map Prod.fst).Nodup →
        check_valid known now
          = .ok (known.filter (fun p => !(recordExpired now p.2)),
                 expiryEvents now known)) := by
  refine ⟨?_, ?_, ?_, ?_⟩
  · intro known tr headers host now nt usn location server cc hnt hnts husn hkn hloc hsrv hcc
    simp only [notifyReceived, hnt, hnts, husn, hkn, hloc, hsrv, hcc, register]
    simp
  · intro known tr headers host now nt usn r hnt hnts husn hkn
    simp only [notifyReceived, hnt, hnts, husn, hkn]
    simp
  · intro known tr headers host now nt usn r hnt hnts husn hkn
    simp only [notifyReceived, hnt, hnts, husn, isKnown, hkn, unRegister]
    simp
  · intro known now hparse hnodup
    exact check_valid_filters known now hparse hnodup

/-- The header dict of the spec's "alive learn" scenario datagram. -/
def aliveHeaders : Headers :=
  [("host", "239.255.255.250:1900"), ("nt", "upnp:rootdevice"), ("nts", "ssdp:alive"),
   ("usn", "uuid:abc::upnp:rootdevice"), ("location", "http://10.0.0.2:8000/desc.xml"),
   ("server", "Foo/1"), ("cache-control", "max-age=1800")]

theorem C7_remote_lifecycle_witness :
    (dictGet? ([] : Registry) "uuid:abc::upnp:rootdevice" = none ∧
     notifyReceived [] .up aliveHeaders "10.0.0.2" 200
       = .ok ([("uuid:abc::upnp:rootdevice",
                ⟨"uuid:abc::upnp:rootdevice", "http://10.0.0.2:8000/desc.xml",
                 "upnp:rootdevice", "", "Foo/1", "max-age=1800", "remote", false,
                 some "10.0.0.2", 200⟩)],
              [Event.newDevice "upnp:rootdevice"
                ⟨"uuid:abc::upnp:rootdevice", "http://10.0.0.2:8000/desc.xml",
                 "upnp:rootdevice", "", "Foo/1", "max-age=1800", "remote", false,
                 some "10.0.0.2", 200⟩,
               Event.logMsg "SSDP" "10.0.0.2"
                 "Notify ssdp:alive for uuid:abc::upnp:rootdevice"], []))
    ∧ (dictGet? sampleRegistry "uuid:c::upnp:rootdevice" = some sampleRemote ∧
       notifyReceived sampleRegistry .up
           [("nt", "upnp:rootdevice"), ("nts", "ssdp:alive"), ("usn", "uuid:c::upnp:rootdevice")]
           "10.0.0.9" 500
         = .ok ([("uuid:a::upnp:rootdevice", sampleLocal), ("uuid:b::cd", sampleSilent),
                 ("uuid:c::upnp:rootdevice",
                  ⟨"uuid:c::upnp:rootdevice", "http://10.0.0.9/d.xml", "upnp:rootdevice", "",
                   "Other/2", "max-age=1", "remote", false, some "10.0.0.9", 500⟩)],
                [Event.logMsg "SSDP" "10.0.0.9"
                  "Notify ssdp:alive for uuid:c::upnp:rootdevice"], []))
    ∧ (notifyReceived sampleRegistry .up
           [("nt", "upnp:rootdevice"), ("nts", "ssdp:byebye"), ("usn", "uuid:c::upnp:rootdevice")]
           "10.0.0.9" 500
         = .ok ([("uuid:a::upnp:rootdevice", sampleLocal), ("uuid:b::cd", sampleSilent)],
                [Event.removedDevice "upnp:rootdevice" sampleRemote,
                 Event.logMsg "SSDP" "10.0.0.9"
                   "Notify ssdp:byebye for uuid:c::upnp:rootdevice"], []))
    ∧ check_valid sampleRegistry 200
        = .ok ([("uuid:a::upnp:rootdevice", sampleLocal), ("uuid:b::cd", sampleSilent)],
               [Event.removedDevice "upnp:rootdevice" sampleRemote]) := by
  have h := C7_remote_lifecycle
  refine ⟨⟨by decide, ?_⟩, ⟨by decide, ?_⟩, ?_, ?_⟩
  · exact (h.1 [] .up aliveHeaders "10.0.0.2" 200 "upnp:rootdevice"
      "uuid:abc::upnp:rootdevice" "http://10.0.0.2:8000/desc.xml" "Foo/1" "max-age=1800"
      (by decide) (by decide) (by decide) (by decide) (by decide) (by decide)
      (by decide)).trans (by decide)
  · exact (h.2.1 sampleRegistry .up
      [("nt", "upnp:rootdevice"), ("nts", "ssdp:alive"), ("usn", "uuid:c::upnp:rootdevice")]
      "10.0.0.9" 500 "upnp:rootdevice" "uuid:c::upnp:rootdevice" sampleRemote
      (by decide) (by decide) (by decide) (by decide)).trans (by decide)
  · exact (h.2.2.1 sampleRegistry .up
      [("nt", "upnp:rootdevice"), ("nts", "ssdp:byebye"), ("usn", "uuid:c::upnp:rootdevice")]
      "10.0.0.9" 500 "upnp:rootdevice" "uuid:c::upnp:rootdevice" sampleRemote
      (by decide) (by decide) (by decide) (by decide)).trans (by decide)
  · exact (h.2.2.2 sampleRegistry 200 (by decide) (by decide)).trans (by decide)

end SSDP
